import Mathlib

/-!
Verification of the GoManage gateway (`src/main.py`).

The module keeps process-wide mutable state: a session credential
(`_session_id`, `_session_expires`) and in-memory catalogue caches
(`_customers_cache`, `_products_cache`).  We embed that state explicitly and
model every network interaction as an oracle argument, so each operation
becomes a pure function from (state, oracle responses) to (new state, result,
observable call counts / attempts).

Time is modelled as a natural number of seconds (`datetime.utcnow()` becomes
the `now : Nat` argument); exceptions become `Option`/`Except` results.
-/

/-- The process-wide session credential: `_session_id` / `_session_expires`
from the source.  `sessionExpires` is an absolute timestamp in seconds. -/
structure SessionState where
  sessionId : Option String
  sessionExpires : Option Nat
deriving Repr, DecidableEq

/-- Default of `Config.CACHE_TTL`: `int(os.getenv("CACHE_TTL", "7200"))`. -/
def CACHE_TTL : Nat := 7200

/-- Model of `_is_session_valid`: `_session_id is not None and _session_expires and
_session_expires > datetime.utcnow()`. -/
def isSessionValid (st : SessionState) (now : Nat) : Bool :=
  st.sessionId.isSome &&
    (match st.sessionExpires with
     | none => false
     | some e => decide (now < e))

/-- Failure modes of `_authenticate`: a `requests.RequestException` (network
error or `raise_for_status` on the login response), the `RuntimeError` raised
when no `JSESSIONID` part is found in the `Set-Cookie` header, and the
`IndexError` from `part.split("=", 1)[1]` when a matching part has no `=`. -/
inductive AuthError where
  | network
  | noJSessionId
  | indexError
deriving Repr, DecidableEq

/-- Python `str.split(sep)` for a one-character separator: every occurrence
splits, empty pieces are kept.  (Char-list model so that all witnesses
evaluate inside the kernel.) -/
def splitOnChar (sep : Char) : List Char → List (List Char)
  | [] => [[]]
  | c :: cs =>
    match splitOnChar sep cs with
    | [] => [[]]
    | g :: gs => if c = sep then [] :: g :: gs else (c :: g) :: gs

/-- Python `str.strip()`: remove leading and trailing whitespace. -/
def pyStrip (s : List Char) : List Char :=
  ((s.dropWhile Char.isWhitespace).reverse.dropWhile Char.isWhitespace).reverse

/-- Python `part.split("=", 1)[1]`: everything after the first `=`, or a
failure (`IndexError`) when the string contains no `=`. -/
def splitAfterEq : List Char → Option (List Char)
  | [] => none
  | c :: cs => if c = '=' then some cs else splitAfterEq cs

/-- The cookie-parsing `for`/`else` loop of `_authenticate`: walk the `;`-split
parts of the `Set-Cookie` header; on the first part whose stripped form starts
with `JSESSIONID`, store the token and the new expiry and stop; if the loop
ends without a match, raise (`RuntimeError`).  State is only written in the
success branch, exactly as in the source. -/
def parseCookieParts (st : SessionState) (now : Nat) :
    List (List Char) → SessionState × Option AuthError
  | [] => (st, some .noJSessionId)
  | p :: rest =>
    if "JSESSIONID".data.isPrefixOf (pyStrip p) then
      match splitAfterEq p with
      | none => (st, some .indexError)
      | some v =>
        ({ sessionId := some ⟨v⟩, sessionExpires := some (now + CACHE_TTL) }, none)
    else parseCookieParts st now rest

/-- Model of `_authenticate`: `net = none` models the login POST failing
(`requests.RequestException`, re-raised); `net = some header` models a
successful login response whose `Set-Cookie` header is `header`
(`resp.headers.get("Set-Cookie", "")`).  Returns the session state after the
call together with the error, if any. -/
def authenticate (st : SessionState) (now : Nat) (net : Option String) :
    SessionState × Option AuthError :=
  match net with
  | none => (st, some .network)
  | some header => parseCookieParts st now (splitOnChar ';' header.data)

/-- The `session_required` decorator's guard: if the session is invalid, call
`_authenticate` (one authentication network call); otherwise do nothing.
Returns (state afterwards, number of authentication calls, error if any). -/
def ensureSession (net0 : Option String) (st : SessionState) (now : Nat) :
    SessionState × Nat × Option AuthError :=
  if isSessionValid st now then (st, 0, none)
  else ((authenticate st now net0).1, 1, (authenticate st now net0).2)

/-- C9: if `_authenticate` fails for any reason (network error, non-success
login status, or no `JSESSIONID` token in the `Set-Cookie` header), both the
stored session token and the stored session expiry are left exactly as they
were before the call. -/
theorem authenticate_atomic_on_error (st : SessionState) (now : Nat)
    (net : Option String) (h : (authenticate st now net).2.isSome = true) :
    (authenticate st now net).1 = st := by
  match net with
  | none => rfl
  | some header =>
    simp only [authenticate] at h ⊢
    generalize splitOnChar ';' header.data = parts at h ⊢
    induction parts with
    | nil => rfl
    | cons p rest ih =>
      simp only [parseCookieParts] at h ⊢
      by_cases hp : "JSESSIONID".data.isPrefixOf (pyStrip p)
      · simp only [hp, if_true] at h ⊢
        cases hsp : splitAfterEq p with
        | none => simp [hsp]
        | some v => simp [hsp] at h
      · simp only [hp, if_false] at h ⊢
        exact ih h

/-- Witness for C9: a failing login (network error) leaves a concrete session
state untouched. -/
theorem authenticate_atomic_on_error_witness :
    (authenticate ⟨some "old", some 5⟩ 9 none).1 = ⟨some "old", some 5⟩ :=
  authenticate_atomic_on_error ⟨some "old", some 5⟩ 9 none (by decide)

/-- C2: for a session-guarded operation, (a) if the stored token is present
and its expiry is strictly in the future, the guard performs zero
authentication calls and changes nothing; (b) if the token is absent or the
expiry has passed, the guard performs exactly one authentication call. -/
theorem sessionRequired_auth_calls (net0 : Option String) (st : SessionState)
    (now : Nat) :
    (((∃ t, st.sessionId = some t) ∧ ∃ e, st.sessionExpires = some e ∧ now < e) →
      ensureSession net0 st now = (st, 0, none)) ∧
    ((st.sessionId = none ∨ ∃ e, st.sessionExpires = some e ∧ e ≤ now) →
      (ensureSession net0 st now).2.1 = 1) := by
  constructor
  · rintro ⟨⟨t, ht⟩, e, he, hlt⟩
    have hv : isSessionValid st now = true := by
      simp [isSessionValid, ht, he, hlt]
    simp [ensureSession, hv]
  · intro h
    have hv : isSessionValid st now = false := by
      rcases h with h | ⟨e, he, hle⟩
      · simp [isSessionValid, h]
      · simp [isSessionValid, he, Nat.not_lt.mpr hle]
    simp [ensureSession, hv]

/-- Witness for C2: with a valid session (expiry 5, now 3) the guard makes no
authentication call; with an empty session it makes exactly one. -/
theorem sessionRequired_auth_calls_witness :
    ensureSession none ⟨some "t", some 5⟩ 3 = (⟨some "t", some 5⟩, 0, none) ∧
    (ensureSession none ⟨none, none⟩ 3).2.1 = 1 :=
  ⟨(sessionRequired_auth_calls none ⟨some "t", some 5⟩ 3).1
      ⟨⟨"t", rfl⟩, 5, rfl, by decide⟩,
    (sessionRequired_auth_calls none ⟨none, none⟩ 3).2 (Or.inl rfl)⟩

/-- Errors surfaced by `_request`: a failed (re-)authentication, or
`raise_for_status` on a response with status ≥ 400 (`requests.HTTPError`,
carrying the upstream status and body). -/
inductive GatewayError where
  | auth (e : AuthError)
  | upstream (status : Nat) (body : String)
deriving Repr, DecidableEq

/-- Observable outcome of one `_request` invocation: the result (decoded body
or error), the session state afterwards, the number of authentication network
calls made, and the list of request attempts actually sent, each recorded as
(JSESSIONID cookie value carried, response status). -/
structure CallOutcome where
  result : Except GatewayError String
  finalState : SessionState
  authCalls : Nat
  attempts : List (String × Nat)
deriving Repr

/-- Model of `_request` (with its `@session_required` decorator).  `authNet k` is the
login response to the k-th authentication call of this invocation; `reqNet i
tok` is the (status, body) answer of the upstream to the i-th request attempt
when it carries cookie `JSESSIONID=tok`.  Control flow mirrors the source: the
guard may authenticate once; the request is sent; on status 401 the client
re-authenticates and retries once, the retried request carrying the refreshed
token (the source mutates `headers["Cookie"]`, which `request_kwargs`
aliases); `raise_for_status` then fails on any status ≥ 400. -/
def gatewayRequest (authNet : Nat → Option String)
    (reqNet : Nat → String → Nat × String) (st : SessionState) (now : Nat) :
    CallOutcome :=
  let es := ensureSession (authNet 0) st now
  match es.2.2 with
  | some e =>
    { result := .error (.auth e), finalState := es.1, authCalls := es.2.1,
      attempts := [] }
  | none =>
    let tok1 := es.1.sessionId.getD "None"
    let r1 := reqNet 0 tok1
    if r1.1 = 401 then
      let as2 := authenticate es.1 now (authNet es.2.1)
      match as2.2 with
      | some e =>
        { result := .error (.auth e), finalState := as2.1,
          authCalls := es.2.1 + 1, attempts := [(tok1, r1.1)] }
      | none =>
        let tok2 := as2.1.sessionId.getD "None"
        let r2 := reqNet 1 tok2
        if 400 ≤ r2.1 then
          { result := .error (.upstream r2.1 r2.2), finalState := as2.1,
            authCalls := es.2.1 + 1, attempts := [(tok1, r1.1), (tok2, r2.1)] }
        else
          { result := .ok r2.2, finalState := as2.1, authCalls := es.2.1 + 1,
            attempts := [(tok1, r1.1), (tok2, r2.1)] }
    else if 400 ≤ r1.1 then
      { result := .error (.upstream r1.1 r1.2), finalState := es.1,
        authCalls := es.2.1, attempts := [(tok1, r1.1)] }
    else
      { result := .ok r1.2, finalState := es.1, authCalls := es.2.1,
        attempts := [(tok1, r1.1)] }

/-- C1: for a `_request` call whose guard succeeds, if the first response has
status 401 and the re-authentication succeeds, then exactly one
re-authentication and exactly one retry are performed (two request attempts in
total, never a third), the retry carries the refreshed session token, and:
if the retry's status is ≥ 400 (still unauthorized, or any other non-success
status) the call fails with an error carrying that upstream status; otherwise
it returns the retry's body. -/
theorem request_401_single_retry (authNet : Nat → Option String)
    (reqNet : Nat → String → Nat × String) (st : SessionState) (now : Nat)
    (hg : (ensureSession (authNet 0) st now).2.2 = none)
    (h401 : ∀ t, (reqNet 0 t).1 = 401)
    (hre : (authenticate (ensureSession (authNet 0) st now).1 now
      (authNet (ensureSession (authNet 0) st now).2.1)).2 = none) :
    (gatewayRequest authNet reqNet st now).authCalls
        = (ensureSession (authNet 0) st now).2.1 + 1 ∧
    (gatewayRequest authNet reqNet st now).attempts
        = [((ensureSession (authNet 0) st now).1.sessionId.getD "None", 401),
           ((authenticate (ensureSession (authNet 0) st now).1 now
              (authNet (ensureSession (authNet 0) st now).2.1)).1.sessionId.getD "None",
            (reqNet 1 ((authenticate (ensureSession (authNet 0) st now).1 now
              (authNet (ensureSession (authNet 0) st now).2.1)).1.sessionId.getD "None")).1)] ∧
    (400 ≤ (reqNet 1 ((authenticate (ensureSession (authNet 0) st now).1 now
              (authNet (ensureSession (authNet 0) st now).2.1)).1.sessionId.getD "None")).1 →
      (gatewayRequest authNet reqNet st now).result
        = .error (.upstream
            (reqNet 1 ((authenticate (ensureSession (authNet 0) st now).1 now
              (authNet (ensureSession (authNet 0) st now).2.1)).1.sessionId.getD "None")).1
            (reqNet 1 ((authenticate (ensureSession (authNet 0) st now).1 now
              (authNet (ensureSession (authNet 0) st now).2.1)).1.sessionId.getD "None")).2)) ∧
    ((reqNet 1 ((authenticate (ensureSession (authNet 0) st now).1 now
              (authNet (ensureSession (authNet 0) st now).2.1)).1.sessionId.getD "None")).1 < 400 →
      (gatewayRequest authNet reqNet st now).result
        = .ok (reqNet 1 ((authenticate (ensureSession (authNet 0) st now).1 now
              (authNet (ensureSession (authNet 0) st now).2.1)).1.sessionId.getD "None")).2) := by
  have hs1 := h401 ((ensureSession (authNet 0) st now).1.sessionId.getD "None")
  simp only [gatewayRequest, hg, hs1, if_true, hre]
  set tok2 := (authenticate (ensureSession (authNet 0) st now).1 now
    (authNet (ensureSession (authNet 0) st now).2.1)).1.sessionId.getD "None" with htok2
  by_cases h4 : 400 ≤ (reqNet 1 tok2).1
  · simp [h4, Nat.not_lt.mpr h4]
  · simp [h4, Nat.lt_of_not_le h4]

/-- Witness for C1: with a valid session `tokA`, a first response of 401, a
re-authentication handing out `tokB` and a retry answering 500, the call makes
one authentication call, exactly two request attempts (the second carrying the
refreshed token `tokB`), and fails with the upstream status 500. -/
theorem request_401_single_retry_witness :
    (gatewayRequest (fun _ => some "JSESSIONID=tokB")
        (fun i _ => if i = 0 then (401, "unauth") else (500, "boom"))
        ⟨some "tokA", some 10⟩ 0).authCalls = 1 ∧
    (gatewayRequest (fun _ => some "JSESSIONID=tokB")
        (fun i _ => if i = 0 then (401, "unauth") else (500, "boom"))
        ⟨some "tokA", some 10⟩ 0).attempts = [("tokA", 401), ("tokB", 500)] ∧
    (gatewayRequest (fun _ => some "JSESSIONID=tokB")
        (fun i _ => if i = 0 then (401, "unauth") else (500, "boom"))
        ⟨some "tokA", some 10⟩ 0).result = .error (.upstream 500 "boom") := by
  have h := request_401_single_retry (fun _ => some "JSESSIONID=tokB")
    (fun i _ => if i = 0 then (401, "unauth") else (500, "boom"))
    ⟨some "tokA", some 10⟩ 0 (by decide) (fun _ => rfl) (by decide)
  exact ⟨h.1, h.2.1, h.2.2.1 (by decide)⟩

/-- A response of a GoManage list endpoint as read by `_load_paginated`:
`data.get("page_entries", [])` and `data.get("total_entries", 0)` — the total
may be absent (`none`). -/
structure PageResp (α : Type) where
  page_entries : List α
  total_entries : Option Nat
deriving Repr, DecidableEq

/-- The `while True` loop of `_load_paginated`, with explicit fuel (`none`
models a run that does not terminate within `fuel` iterations).  `net p` is
the decoded JSON answer to the page-`p` fetch.  Returns the accumulated
entries and the number of page fetches performed. -/
def loadLoop {α : Type} (net : Nat → PageResp α) (page : Nat) (acc : List α) :
    Nat → Option (List α × Nat)
  | 0 => none
  | fuel + 1 =>
    let r := net page
    let acc2 := acc ++ r.page_entries
    if r.total_entries.getD 0 ≤ acc2.length then some (acc2, 1)
    else
      match loadLoop net (page + 1) acc2 fuel with
      | none => none
      | some (out, n) => some (out, n + 1)

/-- Model of `_load_paginated`: start at page 1 with an empty accumulator. -/
def loadPaginated {α : Type} (net : Nat → PageResp α) (fuel : Nat) :
    Option (List α × Nat) :=
  loadLoop net 1 [] fuel

/-- C4: if the first page's `total_entries` is 0 or absent, the loop
terminates after fetching exactly the first page, whatever that page's
`page_entries` are, and returns them. -/
theorem loadPaginated_total_zero {α : Type} (net : Nat → PageResp α)
    (fuel : Nat) (hf : 1 ≤ fuel)
    (h0 : (net 1).total_entries = none ∨ (net 1).total_entries = some 0) :
    loadPaginated net fuel = some ((net 1).page_entries, 1) := by
  obtain ⟨f, rfl⟩ : ∃ f, fuel = f + 1 := ⟨fuel - 1, by omega⟩
  have hz : (net 1).total_entries.getD 0 = 0 := by
    rcases h0 with h | h <;> simp [h]
  simp [loadPaginated, loadLoop, hz]

/-- Witness for C4: a first page with absent `total_entries` and one entry
terminates after one fetch and returns that entry. -/
theorem loadPaginated_total_zero_witness :
    loadPaginated (fun _ => PageResp.mk [5] none) 1 = some ([5], 1) :=
  loadPaginated_total_zero (fun _ => PageResp.mk [5] none) 1 (by decide)
    (Or.inl rfl)

/-- Counterexample for C3 as stated: with `total_entries = 0` (so `T = 0`,
every page empty: `min (500, 0 - …) = 0`), `_load_paginated` performs 1 page
fetch, while `ceil(T/500) = (0 + 499) / 500 = 0`. -/
theorem loadPaginated_ceil_fetches_cex :
    (loadPaginated (fun _ => PageResp.mk ([] : List Nat) (some 0)) 1).map
        Prod.snd = some 1 ∧ (0 + 499) / 500 = 0 := by
  constructor
  · rfl
  · rfl


/-- The in-order concatenation of the `page_entries` of pages
`k, k+1, …, k+m-1` of a list endpoint. -/
def pagesConcat {α : Type} (net : Nat → PageResp α) (k m : Nat) : List α :=
  match m with
  | 0 => []
  | m + 1 => (net k).page_entries ++ pagesConcat net (k + 1) m

/-- Invariant of the pagination loop: if every page `k` reports total `T` and
carries `min 500 (T - 500*(k-1))` entries, then starting at page `k` with
`500*(k-1)` entries already accumulated and `m` pages still to fetch (where
`m` is minimal with `T ≤ 500*(k-1+m)`), the loop fetches exactly pages
`k, …, k+m-1`, appends them in order, and the final accumulator has `T`
entries. -/
theorem loadLoop_pages {α : Type} (net : Nat → PageResp α) (T : Nat)
    (hT : ∀ k, 1 ≤ k → (net k).total_entries = some T)
    (hlen : ∀ k, 1 ≤ k →
      (net k).page_entries.length = min 500 (T - 500 * (k - 1))) :
    ∀ (m : Nat), ∀ (k : Nat) (acc : List α) (fuel : Nat),
      1 ≤ m → 1 ≤ k → m ≤ fuel →
      acc.length = 500 * (k - 1) →
      (k = 1 ∨ 500 * (k - 1) < T) →
      T ≤ 500 * (k - 1 + m) →
      (m = 1 ∨ 500 * (k - 1 + m - 1) < T) →
      loadLoop net k acc fuel = some (acc ++ pagesConcat net k m, m) ∧
      (acc ++ pagesConcat net k m).length = T := by
  intro m
  induction m with
  | zero => intro k acc fuel h1; omega
  | succ m ih =>
    intro k acc fuel _ hk hfuel hacc hprev hub hmin
    obtain ⟨f, rfl⟩ : ∃ f, fuel = f + 1 := ⟨fuel - 1, by omega⟩
    have hTk := hT k hk
    have hlk := hlen k hk
    have hlk2 : (net k).page_entries.length = 500 ∧
        500 * k ≤ T ∨
        (net k).page_entries.length = T - 500 * (k - 1) ∧
        T - 500 * (k - 1) ≤ 500 := by
      rcases min_cases 500 (T - 500 * (k - 1)) with ⟨h1, h2⟩ | ⟨h1, h2⟩
      · rcases Nat.le_total (500 * k) T with h3 | h3
        · exact Or.inl ⟨by omega, h3⟩
        · right
          constructor
          · omega
          · omega
      · exact Or.inr ⟨by omega, by omega⟩
    have hacc2 : (acc ++ (net k).page_entries).length =
        500 * (k - 1) + (net k).page_entries.length := by
      rw [List.length_append, hacc]
    by_cases hstop : T ≤ (acc ++ (net k).page_entries).length
    · have h500k : T ≤ 500 * k := by
        rcases hlk2 with ⟨h1, h2⟩ | ⟨h1, h2⟩ <;> omega
      have hm0 : m = 0 := by
        rcases hmin with h | h
        · omega
        · by_contra hm
          have : 500 * k ≤ 500 * (k - 1 + (m + 1) - 1) :=
            Nat.mul_le_mul_left 500 (by omega)
          omega
      subst hm0
      have hlenT : (acc ++ (net k).page_entries).length = T := by
        rcases hlk2 with ⟨h1, h2⟩ | ⟨h1, h2⟩ <;> rcases hprev with h3 | h3 <;>
          omega
      simp only [loadLoop, hTk, Option.getD_some, if_pos hstop]
      constructor
      · simp [pagesConcat]
      · simpa [pagesConcat] using hlenT
    · have h500k : 500 * k < T := by
        rcases hlk2 with ⟨h1, h2⟩ | ⟨h1, h2⟩ <;> omega
      have hm1 : 1 ≤ m := by
        by_contra hm
        have hm0 : m = 0 := by omega
        subst hm0
        have : 500 * (k - 1 + 1) = 500 * k := by congr 1; omega
        omega
      have harg := ih (k + 1) (acc ++ (net k).page_entries) f hm1 (by omega)
        (by omega)
        (by rcases hlk2 with ⟨h1, h2⟩ | ⟨h1, h2⟩ <;> omega)
        (by right
            have h11 : 500 * (k + 1 - 1) = 500 * k := by omega
            omega)
        (by have : k + 1 - 1 + m = k - 1 + (m + 1) := by omega
            rw [this]; exact hub)
        (by rcases hmin with h | h
            · omega
            · right
              have : k + 1 - 1 + m - 1 = k - 1 + (m + 1) - 1 := by omega
              rw [this]; exact h)
      simp only [loadLoop, hTk, Option.getD_some, if_neg hstop, harg.1]
      constructor
      · simp [pagesConcat, List.append_assoc]
      · have := harg.2
        simp only [pagesConcat, ← List.append_assoc]
        exact this

/-- C3 (amended): if every page `k` of the endpoint reports
`total_entries = T` and returns `min 500 (T - 500*(k-1))` entries, then
`_load_paginated` returns the in-order concatenation of the pages — `T`
entries in total — after exactly `max 1 (ceil(T/500))` page fetches (the
`max 1` because the loop body always fetches at least one page, even when
`T = 0`). -/
theorem loadPaginated_completeness {α : Type} (net : Nat → PageResp α)
    (T : Nat)
    (hT : ∀ k, 1 ≤ k → (net k).total_entries = some T)
    (hlen : ∀ k, 1 ≤ k →
      (net k).page_entries.length = min 500 (T - 500 * (k - 1)))
    (fuel : Nat) (hfuel : max 1 ((T + 499) / 500) ≤ fuel) :
    loadPaginated net fuel =
      some (pagesConcat net 1 (max 1 ((T + 499) / 500)),
        max 1 ((T + 499) / 500)) ∧
    (pagesConcat net 1 (max 1 ((T + 499) / 500))).length = T := by
  have hmax1 : 1 ≤ max 1 ((T + 499) / 500) := Nat.le_max_left _ _
  have h := loadLoop_pages net T hT hlen (max 1 ((T + 499) / 500)) 1 [] fuel
    hmax1 (by omega) hfuel (by simp) (Or.inl rfl)
    (by simp only [Nat.sub_self, Nat.zero_add]
        have h1 : T ≤ 500 * ((T + 499) / 500) := by omega
        have hle : 500 * ((T + 499) / 500) ≤ 500 * max 1 ((T + 499) / 500) :=
          Nat.mul_le_mul_left 500 (Nat.le_max_right _ _)
        omega)
    (by rcases Nat.le_total ((T + 499) / 500) 1 with hc | hc
        · left; omega
        · right
          simp only [Nat.sub_self, Nat.zero_add]
          have hmx : max 1 ((T + 499) / 500) = (T + 499) / 500 := by omega
          rw [hmx]
          omega)
  simpa [loadPaginated] using h

/-- Witness for C3 (amended): an endpoint with `T = 3` (one page of three
entries, every later page empty) yields the three entries after exactly
`max 1 (ceil(3/500)) = 1` fetch. -/
theorem loadPaginated_completeness_witness :
    loadPaginated
        (fun k => if k = 1 then PageResp.mk [10, 20, 30] (some 3)
          else PageResp.mk [] (some 3)) 1 = some ([10, 20, 30], 1) ∧
    ([10, 20, 30] : List Nat).length = 3 := by
  have h := loadPaginated_completeness
    (fun k => if k = 1 then PageResp.mk [10, 20, 30] (some 3)
      else PageResp.mk [] (some 3)) 3
    (by intro k hk
        by_cases h1 : k = 1 <;> simp [h1])
    (by intro k hk
        match k with
        | 1 => simp
        | n + 2 =>
          have hz : (3 : Nat) - 500 * (n + 1) = 0 := by omega
          simp [hz])
    1 (by decide)
  exact ⟨h.1, h.2⟩

/-- Python slice-bound semantics (step 1): a negative index counts from the
end (clamped at 0), a non-negative one is clamped at the length. -/
def pyBound (len : Nat) (i : Int) : Nat :=
  if i < 0 then ((len : Int) + i).toNat else min i.toNat len

/-- Python `xs[a:b]` (step 1): the elements with index in
`[pyBound len a, pyBound len b)`. -/
def pySlice {α : Type} (xs : List α) (a b : Int) : List α :=
  (xs.take (pyBound xs.length b)).drop (pyBound xs.length a)

/-- The `pagination` object built by `get_customers`. -/
structure PaginationInfo where
  page : Int
  per_page : Int
  total : Nat
  pages : Int
deriving Repr, DecidableEq

/-- The 200 JSON body of GET `/api/customers`. -/
structure CustomersResp (α : Type) where
  customers : List α
  pagination : PaginationInfo
deriving Repr, DecidableEq

/-- A Python exception escaping a handler (Flask turns it into a 500): here
only the `NameError` from evaluating `json.dumps(c)` — the module never
imports `json` (the only `json` in scope is the keyword argument of
`_request`), so the list comprehension raises as soon as it is evaluated on a
first element. -/
inductive HandlerError where
  | nameErrorJsonUndefined
deriving Repr, DecidableEq

/-- GET `/api/customers` (`get_customers`), given the already-loaded customer
cache: lower-cases and strips the `search` argument; a non-empty search runs
`[c for c in rows if search in json.dumps(c).lower()]`, which raises
`NameError` on the first element (and only filters nothing when the cache is
empty, since the comprehension body never runs); then slices `rows` to page
`page` of size `per_page` and reports the pagination data, `pages` being
Python's floor division `(total + per_page - 1) // per_page`. -/
def get_customers {α : Type} (cache : List α) (page per_page : Int)
    (search : String) : Except HandlerError (CustomersResp α) :=
  let s := pyStrip (search.data.map Char.toLower)
  if s.isEmpty then
    let rows := cache
    let total := rows.length
    .ok { customers := pySlice rows ((page - 1) * per_page) (page * per_page),
          pagination :=
            { page := page, per_page := per_page, total := total,
              pages := ((total : Int) + per_page - 1).fdiv per_page } }
  else if cache.isEmpty then
    let rows : List α := []
    let total := rows.length
    .ok { customers := pySlice rows ((page - 1) * per_page) (page * per_page),
          pagination :=
            { page := page, per_page := per_page, total := total,
              pages := ((total : Int) + per_page - 1).fdiv per_page } }
  else .error .nameErrorJsonUndefined

/-- C5 (the code violates the claim): a GET `/api/customers` with non-empty
search `"a"` against a one-entry cache does not return the filtered page — it
raises `NameError` (`json` is never imported), which Flask surfaces as a 500
error. -/
theorem get_customers_search_raises :
    get_customers ["acme"] 1 50 "a" = .error .nameErrorJsonUndefined := by
  rfl

/-- C7: against a 25-entry cache with no search filter, GET
`/api/customers?page=2&per_page=10` returns the cache entries at indices
10 through 19 (i.e. `(take 20).drop 10`), and the pagination reports
`total = 25` and `pages = 3`. -/
theorem get_customers_page2_of_25 {α : Type} (cache : List α)
    (h : cache.length = 25) :
    get_customers cache 2 10 "" =
      .ok { customers := (cache.take 20).drop 10,
            pagination :=
              { page := 2, per_page := 10, total := 25, pages := 3 } } := by
  have hfd : (34 : Int).fdiv 10 = 3 := by decide
  simp [get_customers, pySlice, pyBound, h, pyStrip, hfd]

/-- Witness for C7: the 25-entry cache `List.range 25`. -/
theorem get_customers_page2_of_25_witness :
    get_customers (List.range 25) 2 10 "" =
      .ok { customers := ((List.range 25).take 20).drop 10,
            pagination :=
              { page := 2, per_page := 10, total := 25, pages := 3 } } :=
  get_customers_page2_of_25 (List.range 25) (by simp)

/-- C10: for a no-search GET `/api/customers` with `page ≥ 1` and
`per_page ≥ 1` whose window starts at or past the end of the cache, the
handler succeeds (no out-of-range error) with an empty `customers` list while
`total` and `pages` still describe the whole cache. -/
theorem get_customers_beyond_range {α : Type} (cache : List α) (p k : Int)
    (hp : 1 ≤ p) (hk : 1 ≤ k)
    (hbeyond : (cache.length : Int) ≤ (p - 1) * k) :
    get_customers cache p k "" =
      .ok { customers := [],
            pagination :=
              { page := p, per_page := k, total := cache.length,
                pages := ((cache.length : Int) + k - 1).fdiv k } } := by
  have hnn : (0 : Int) ≤ (p - 1) * k := mul_nonneg (by omega) (by omega)
  have hx : cache.length ≤ ((p - 1) * k).toNat := by omega
  have hlo : pyBound cache.length ((p - 1) * k) = cache.length := by
    simp only [pyBound, if_neg (by omega : ¬((p - 1) * k < 0))]
    exact min_eq_right hx
  have hempty : pySlice cache ((p - 1) * k) (p * k) = [] := by
    unfold pySlice
    rw [hlo]
    exact List.drop_eq_nil_of_le (by simp)
  simp only [get_customers, hempty]
  rfl

/-- Witness for C10: page 2 of size 5 against a 3-entry cache gives 200 with
no customers, `total = 3`, `pages = 1`. -/
theorem get_customers_beyond_range_witness :
    get_customers [1, 2, 3] 2 5 "" =
      .ok { customers := [],
            pagination := { page := 2, per_page := 5, total := 3,
                            pages := 1 } } :=
  get_customers_beyond_range [1, 2, 3] 2 5 (by decide) (by decide) (by decide)

/-- Model of `_ensure_customers_loaded`, given the sequence the paginated load would
deliver: if the cache list is empty, extend it with the load (one paginated
load performed), else do nothing.  Returns (cache afterwards, number of
paginated loads performed). -/
def ensureCustomersLoaded {α : Type} (loadResult : List α) (cache : List α) :
    List α × Nat :=
  if cache.isEmpty then (cache ++ loadResult, 1) else (cache, 0)

/-- Counterexample for C8 as stated: when the paginated load returns the empty
sequence (an upstream with zero customers), calling `_ensure_customers_loaded`
twice in a row from the empty cache performs two paginated loads, not one. -/
theorem ensureCustomersLoaded_twice_cex :
    (ensureCustomersLoaded ([] : List Nat) []).2 +
      (ensureCustomersLoaded ([] : List Nat)
        (ensureCustomersLoaded ([] : List Nat) []).1).2 = 2 := by
  decide

/-- C8 (amended): starting from the empty (never-loaded) cache, if the
paginated load returns a non-empty sequence, calling
`_ensure_customers_loaded` twice in a row performs exactly one paginated load
(the first call loads, the second is a no-op), and the stored sequence after
both calls equals the sequence after the first call.  (With an empty load
result the cache stays empty, so the second call performs a second load; the
stored sequence is still the same after both calls.) -/
theorem ensureCustomersLoaded_idempotent {α : Type} (load : List α)
    (h : load ≠ []) :
    (ensureCustomersLoaded load []).2 = 1 ∧
    ensureCustomersLoaded load (ensureCustomersLoaded load []).1 =
      ((ensureCustomersLoaded load []).1, 0) := by
  match load, h with
  | x :: xs, _ =>
    constructor
    · rfl
    · rfl

/-- Witness for C8 (amended): with a one-entry load, the first call loads and
the second is a no-op returning the same sequence. -/
theorem ensureCustomersLoaded_idempotent_witness :
    (ensureCustomersLoaded [7] []).2 = 1 ∧
    ensureCustomersLoaded [7] (ensureCustomersLoaded [7] []).1 =
      ((ensureCustomersLoaded [7] []).1, 0) :=
  ensureCustomersLoaded_idempotent [7] (by decide)

/-- The fields POST `/api/customers` requires in its JSON body. -/
def requiredCustomerFields : List String := ["business_name", "name", "vat_number"]

/-- Response of POST `/api/customers`: HTTP status, names of the missing
required fields (for the 400 case), and the created record (success case). -/
structure CreateResp where
  status : Nat
  missing : List String
  customer : Option String
deriving Repr, DecidableEq

/-- Modelled from the spec: the POST `/api/customers` handler is not part of
`src/main.py` (the spec's interface table and missing-field scenario describe
it: "create a customer upstream; requires business_name, name, vat_number;
200 JSON {status, customer}; invalidates customer cache; 400 if required
fields missing").  `body` is the request's JSON object as an association
list, `created` the record the upstream returns for a successful create,
`cache` the current customer cache.  Returns the response and the cache
afterwards (cleared on success). -/
def create_customer (body : List (String × String)) (created : String)
    (cache : List String) : CreateResp × List String :=
  let missing := requiredCustomerFields.filter (fun f => (body.lookup f).isNone)
  if missing.isEmpty then ({ status := 200, missing := [], customer := some created }, [])
  else ({ status := 400, missing := missing, customer := none }, cache)

/-- C6: POST `/api/customers` with a body missing required fields returns 400
naming exactly the missing ones of `business_name`, `name`, `vat_number`; on
success it returns 200 with the created customer and clears the customer
cache, so the next read performs a fresh paginated load. -/
theorem create_customer_spec (body : List (String × String)) (created : String)
    (cache : List String) :
    ((requiredCustomerFields.filter (fun f => (body.lookup f).isNone)) ≠ [] →
      create_customer body created cache =
        ({ status := 400,
           missing := requiredCustomerFields.filter
             (fun f => (body.lookup f).isNone),
           customer := none }, cache)) ∧
    ((requiredCustomerFields.filter (fun f => (body.lookup f).isNone)) = [] →
      create_customer body created cache =
        ({ status := 200, missing := [], customer := some created }, []) ∧
      ∀ load : List String,
        (ensureCustomersLoaded load (create_customer body created cache).2).2
          = 1) := by
  constructor
  · intro h
    have he : (requiredCustomerFields.filter
        (fun f => (body.lookup f).isNone)).isEmpty = false := by
      cases hf : requiredCustomerFields.filter (fun f => (body.lookup f).isNone)
      · exact absurd hf h
      · rfl
    simp [create_customer, he]
  · intro h
    have he : (requiredCustomerFields.filter
        (fun f => (body.lookup f).isNone)).isEmpty = true := by
      rw [h]; rfl
    refine ⟨by simp [create_customer, he], ?_⟩
    intro load
    simp [create_customer, he, ensureCustomersLoaded]

/-- Witness for C6: the spec's missing-field scenario — body
`{"name": "Acme SL"}` yields 400 naming `business_name` and `vat_number`; a
complete body yields 200 and clears the cache so the next read reloads. -/
theorem create_customer_spec_witness :
    create_customer [("name", "Acme SL")] "rec" ["c1"] =
      ({ status := 400, missing := ["business_name", "vat_number"],
         customer := none }, ["c1"]) ∧
    (create_customer [("business_name", "Acme"), ("name", "Acme SL"),
        ("vat_number", "B12345678")] "rec" ["c1"] =
      ({ status := 200, missing := [], customer := some "rec" }, []) ∧
    (ensureCustomersLoaded ["c2"]
      (create_customer [("business_name", "Acme"), ("name", "Acme SL"),
        ("vat_number", "B12345678")] "rec" ["c1"]).2).2 = 1) := by
  constructor
  · exact (create_customer_spec [("name", "Acme SL")] "rec" ["c1"]).1
      (by decide)
  · have h := (create_customer_spec [("business_name", "Acme"),
      ("name", "Acme SL"), ("vat_number", "B12345678")] "rec" ["c1"]).2
      (by decide)
    exact ⟨h.1, h.2 ["c2"]⟩
